import Mathlib

/-!
Shallow embedding of the resilient data-access layer of `src/js/firebase.js`
(version 3.0.0) of the JeelaniTextiles repository: LRU cache with TTL,
token-bucket rate limiter, offline operation queue, connection state,
retry with exponential backoff, the `executeWithCache` orchestrator, and the
domain-service write operations.  JavaScript `Map` objects are embedded as
association lists in insertion order (front = oldest entry), timestamps are
rational milliseconds, and fallible asynchronous code is embedded as explicit
`Except`-valued results.
-/

namespace JeelaniFirebase

/-- JavaScript runtime values as far as the data-access layer inspects them:
the layer only ever asks whether a value is truthy, so objects and arrays are
kept opaque behind a tag. -/
inductive JSValue where
  | vNull
  | vUndefined
  | vBool (b : Bool)
  | vNum (q : ℚ)
  | vStr (s : String)
  | vObj (tag : String)
deriving DecidableEq, Repr

/-- JavaScript truthiness, restricted to the embedded value forms:
`null`, `undefined`, `false`, `0` and `""` are falsy, objects are truthy. -/
def truthy : JSValue → Bool
  | .vNull => false
  | .vUndefined => false
  | .vBool b => b
  | .vNum q => decide (q ≠ 0)
  | .vStr s => decide (s ≠ "")
  | .vObj _ => true

/-- A thrown JavaScript error as the layer observes it: its `name`
(constructor), its Firebase `code` string and its message. -/
structure JSError where
  name : String
  code : String
  message : String
deriving DecidableEq, Repr

/-! ### JavaScript `Map` semantics as an association list

A JS `Map` iterates in insertion order; `set` on an existing key updates the
value in place without moving the entry, `set` on a fresh key appends at the
end, and `delete` removes the single entry with that key. -/

/-- Timestamped cache entry, as stored by `LRUCache.set`
(`firebase.js:198-201`). -/
structure CacheItem where
  value : JSValue
  timestamp : ℚ
deriving DecidableEq, Repr

/-- `Map.get`: the first (and in a well-formed map, only) binding of `k`. -/
def mapLookup (k : String) : List (String × CacheItem) → Option CacheItem
  | [] => none
  | e :: rest => if e.1 = k then some e.2 else mapLookup k rest

/-- `Map.delete k`: removes the single entry bound to `k`. -/
def mapDelete (k : String) : List (String × CacheItem) → List (String × CacheItem)
  | [] => []
  | e :: rest => if e.1 = k then rest else e :: mapDelete k rest

/-- `Map.set k v`: in-place update when `k` is present (keeping its position
in iteration order), append at the most-recent end otherwise. -/
def mapSet (k : String) (v : CacheItem) : List (String × CacheItem) → List (String × CacheItem)
  | [] => [(k, v)]
  | e :: rest => if e.1 = k then (k, v) :: rest else e :: mapSet k v rest

/-! ### LRUCache (`firebase.js:168-211`) -/

/-- The `LRUCache` of `firebase.js:168-211`: bounded map from string keys to
timestamped values, iteration order of the underlying JS `Map` kept as the
list order (front = oldest position). -/
structure LRUCache where
  maxSize : ℕ
  ttl : ℚ
  cache : List (String × CacheItem)
deriving DecidableEq, Repr

/-- `LRUCache.get` (`firebase.js:175-189`): `null` on an unknown key; an
entry older than `ttl` is deleted and reported as `null`; otherwise the entry
is promoted to most-recently-used (delete + re-set) and its stored value is
returned, whatever that value is. -/
def LRUCache.get (c : LRUCache) (now : ℚ) (key : String) : JSValue × LRUCache :=
  match mapLookup key c.cache with
  | none => (.vNull, c)
  | some item =>
    if c.ttl < now - item.timestamp then
      (.vNull, { c with cache := mapDelete key c.cache })
    else
      (item.value, { c with cache := mapSet key item (mapDelete key c.cache) })

/-- `LRUCache.set` (`firebase.js:191-202`): when `size >= maxSize` the first
key in iteration order is deleted (whether or not the incoming key is already
present), then the incoming key is written with a fresh timestamp via JS
`Map.set` semantics. -/
def LRUCache.set (c : LRUCache) (now : ℚ) (key : String) (value : JSValue) : LRUCache :=
  let l :=
    if c.maxSize ≤ c.cache.length then
      match c.cache with
      | [] => []
      | e :: rest => mapDelete e.1 (e :: rest)
    else c.cache
  { c with cache := mapSet key ⟨value, now⟩ l }

/-- `LRUCache.clear` (`firebase.js:204-206`). -/
def LRUCache.clear (c : LRUCache) : LRUCache :=
  { c with cache := [] }

/-! ### RateLimiter (`firebase.js:217-249`), token bucket -/

/-- The token-bucket `RateLimiter` of `firebase.js:217-249`.  Timestamps are
in milliseconds; `tokens` is a real-valued count embedded as `ℚ`. -/
structure RateLimiter where
  maxTokens : ℚ
  tokens : ℚ
  refillRate : ℚ
  lastRefill : ℚ
deriving DecidableEq, Repr

/-- `RateLimiter.refill` (`firebase.js:236-243`):
`tokens := min maxTokens (tokens + elapsedSeconds * refillRate)`. -/
def RateLimiter.refill (rl : RateLimiter) (now : ℚ) : RateLimiter :=
  { rl with
    tokens := min rl.maxTokens (rl.tokens + (now - rl.lastRefill) / 1000 * rl.refillRate)
    lastRefill := now }

/-- `RateLimiter.tryAcquire` (`firebase.js:225-234`): refill first, then admit
and decrement iff `tokens >= cost`, returning `false` (tokens unchanged after
the refill) otherwise. -/
def RateLimiter.tryAcquire (rl : RateLimiter) (now : ℚ) (cost : ℚ) : Bool × RateLimiter :=
  let r := rl.refill now
  if cost ≤ r.tokens then (true, { r with tokens := r.tokens - cost })
  else (false, r)

/-- A sequence of `tryAcquire` calls, each tagged with its clock time and its
cost, applied left to right. -/
def RateLimiter.runCalls (rl : RateLimiter) : List (ℚ × ℚ) → RateLimiter
  | [] => rl
  | (t, c) :: rest => ((rl.tryAcquire t c).2).runCalls rest

/-! ### OfflineQueue (`firebase.js:255-339`)

The IndexedDB object store `operations` (auto-increment primary key) is
embedded as an in-order list of records plus the next auto key; IndexedDB's
`getAll` returns records in primary-key order, which for auto-increment keys
is insertion order. -/

/-- A record of the `operations` store, as written by `OfflineQueue.add`
(`firebase.js:290-294`): the spread operation fields (`type`, `cacheKey`)
plus the stamped `timestamp` and `status`. -/
structure QueuedOp where
  id : ℕ
  type : String
  cacheKey : String
  timestamp : ℚ
  status : String
deriving DecidableEq, Repr

/-- The `OfflineQueue` of `firebase.js:255-339`: its durable store, embedded
in memory. -/
structure OfflineQueue where
  nextId : ℕ
  ops : List QueuedOp
deriving DecidableEq, Repr

/-- The operation payload handed to `OfflineQueue.add` by its one caller
(`firebase.js:487-491`). -/
structure OpPayload where
  type : String
  cacheKey : String
deriving DecidableEq, Repr

/-- `OfflineQueue.add` (`firebase.js:283-299`): stores the operation with a
fresh auto-increment id, the current timestamp and status `pending`, and
resolves with the new id.  The source performs no capacity check. -/
def OfflineQueue.add (q : OfflineQueue) (now : ℚ) (op : OpPayload) : ℕ × OfflineQueue :=
  (q.nextId,
   { nextId := q.nextId + 1
     ops := q.ops ++ [⟨q.nextId, op.type, op.cacheKey, now, "pending"⟩] })

/-- `OfflineQueue.getAll` (`firebase.js:301-312`): all stored operations in
primary-key (= enqueue) order. -/
def OfflineQueue.getAll (q : OfflineQueue) : List QueuedOp :=
  q.ops

/-- `OfflineQueue.remove` (`firebase.js:314-325`): deletes the record with
the given primary key. -/
def OfflineQueue.remove (q : OfflineQueue) (id : ℕ) : OfflineQueue :=
  { q with ops := q.ops.filter (fun o => o.id ≠ id) }

/-- `OfflineQueue.clear` (`firebase.js:327-338`). -/
def OfflineQueue.clear (q : OfflineQueue) : OfflineQueue :=
  { q with ops := [] }

/-- The reconnect handler registered by `initializeServices`
(`firebase.js:895-910`): on an offline-to-online transition it reads the
whole queue and, for each queued operation, removes it; the loop body
performs no backend write (the replay logic is a `TODO` in the source).
The second component is the list of backend writes attempted during the
drain, which the source's loop leaves empty. -/
def reconnectDrain (q : OfflineQueue) : OfflineQueue × List String :=
  (q.getAll.foldl (fun acc op => acc.remove op.id) q, [])

/-! ### Retry with exponential backoff (`firebase.js:414-439`) -/

/-- The error codes `retryWithBackoff` refuses to retry
(`firebase.js:424-426`). -/
def isTerminalCode (c : String) : Bool :=
  c = "permission-denied" || c = "unauthenticated" || c = "invalid-argument"

/-- What a call to `retryWithBackoff` does: resolve with a value, throw a
`JSError`, or throw the `undefined` value of its never-assigned `lastError`
local (reachable only when `maxRetries = 0`). -/
inductive RetryOutcome where
  | ok (v : JSValue)
  | threw (e : JSError)
  | threwUndefined
deriving DecidableEq, Repr

/-- The `for (let i = 0; i < maxRetries; i++)` loop of `retryWithBackoff`
(`firebase.js:417-436`), with the operation indexed by the attempt number
`i`, `remaining` attempts left, and the trace of attempts made and backoff
delays slept (`baseDelay * 2^i` after a failed attempt `i` that is not the
last, `firebase.js:430-434`).  A terminal error code is rethrown at once;
after the last attempt the raw `lastError` is rethrown. -/
def retryGo (fn : ℕ → Except JSError JSValue) (baseDelay : ℕ) :
    ℕ → ℕ → RetryOutcome × ℕ × List ℕ
  | _, 0 => (.threwUndefined, 0, [])
  | i, remaining + 1 =>
    match fn i with
    | .ok v => (.ok v, 1, [])
    | .error e =>
      if isTerminalCode e.code then (.threw e, 1, [])
      else if remaining = 0 then (.threw e, 1, [])
      else
        let rest := retryGo fn baseDelay (i + 1) remaining
        (rest.1, rest.2.1 + 1, baseDelay * 2 ^ i :: rest.2.2)

/-- `retryWithBackoff(fn, maxRetries, baseDelay)` (`firebase.js:414-439`),
returning the outcome together with the number of attempts made and the
list of inter-attempt delays. -/
def retryWithBackoff (fn : ℕ → Except JSError JSValue) (maxRetries baseDelay : ℕ) :
    RetryOutcome × ℕ × List ℕ :=
  retryGo fn baseDelay 0 maxRetries

/-! ### Metrics and shared service state -/

/-- The counters of `MetricsTracker` (`firebase.js:375-408`). -/
structure Metrics where
  cacheHits : ℕ
  cacheMisses : ℕ
  networkRequests : ℕ
  networkErrors : ℕ
  rateLimitHits : ℕ
  offlineQueueSize : ℕ
deriving DecidableEq, Repr

/-- The shared infrastructure a `FirebaseService` instance closes over
(`firebase.js:445-452`): cache, rate limiter, offline queue, the connection
monitor's `isOnline` flag, and the metrics counters. -/
structure SvcState where
  cache : LRUCache
  rl : RateLimiter
  queue : OfflineQueue
  isOnline : Bool
  metrics : Metrics
deriving DecidableEq, Repr

/-! ### `FirebaseService.executeWithCache` (`firebase.js:454-496`)

The method has a single suspension point: the `await` of
`retryWithBackoff(operation, ...)`.  It is split into the synchronous
prefix before that await (`executeWithCachePhase1`) and the continuation
after the backend settles (`executeWithCachePhase2`); the sequential
`executeWithCache` composes the two. -/

/-- Outcome of the synchronous prefix of `executeWithCache`: an early return
with a truthy cached value, an early `RateLimitError` throw, or the start of
a backend request. -/
inductive ReadPhase1 where
  | hit (v : JSValue)
  | rateLimited
  | backendStarted
deriving DecidableEq, Repr

/-- Synchronous prefix of `executeWithCache` (`firebase.js:455-474`): when
`useCache` is not `false`, consult the cache and return a truthy cached
value at once (cache hit) or count a miss; then `tryAcquire()` at cost 1,
throwing `RateLimitError` on denial; otherwise count a network request and
start the backend call. -/
def executeWithCachePhase1 (now : ℚ) (cacheKey : String) (useCache : Bool) (st : SvcState) :
    ReadPhase1 × SvcState :=
  let checked :=
    if useCache then
      let gotten := st.cache.get now cacheKey
      if truthy gotten.1 then
        (some gotten.1,
         { st with
            cache := gotten.2
            metrics := { st.metrics with cacheHits := st.metrics.cacheHits + 1 } })
      else
        (none,
         { st with
            cache := gotten.2
            metrics := { st.metrics with cacheMisses := st.metrics.cacheMisses + 1 } })
    else (none, st)
  match checked with
  | (some v, st1) => (.hit v, st1)
  | (none, st1) =>
    let acq := st1.rl.tryAcquire now 1
    if acq.1 then
      (.backendStarted,
       { st1 with
          rl := acq.2
          metrics := { st1.metrics with networkRequests := st1.metrics.networkRequests + 1 } })
    else
      (.rateLimited,
       { st1 with
          rl := acq.2
          metrics := { st1.metrics with rateLimitHits := st1.metrics.rateLimitHits + 1 } })

/-- The `RateLimitError` thrown at `firebase.js:468`. -/
def rateLimitError : JSError :=
  ⟨"RateLimitError", "rate-limit-error", "Rate limit exceeded. Please try again later."⟩

/-- The `NetworkError` wrapper thrown at `firebase.js:494`. -/
def networkErrorWrap (e : JSError) : JSError :=
  ⟨"NetworkError", "network-error", "Operation failed: " ++ e.message⟩

/-- Continuation of `executeWithCache` once the backend settles
(`firebase.js:474-495`): a resolved result is cached only when `useCache` is
not `false` and the result is truthy, then returned; a rejection counts a
network error, enqueues `(type, cacheKey, timestamp)` when the monitor is
offline and `options.queueOffline` is set, and rethrows the error wrapped in
a `NetworkError`. -/
def executeWithCachePhase2 (now : ℚ) (cacheKey : String) (useCache : Bool)
    (opType : String) (queueOffline : Bool) (backendResult : Except JSError JSValue)
    (st : SvcState) : Except JSError JSValue × SvcState :=
  match backendResult with
  | .ok v =>
    if useCache && truthy v then
      (.ok v, { st with cache := st.cache.set now cacheKey v })
    else
      (.ok v, st)
  | .error e =>
    let st1 := { st with metrics := { st.metrics with networkErrors := st.metrics.networkErrors + 1 } }
    let st2 :=
      if !st1.isOnline && queueOffline then
        { st1 with queue := (st1.queue.add now ⟨opType, cacheKey⟩).2 }
      else st1
    (.error (networkErrorWrap e), st2)

/-- Sequential run of `executeWithCache` (`firebase.js:454-496`), with the
backend operation indexed by retry attempt; `retriesOpt` models
`options.retries || 3` (so `0` means absent and defaults to `3`) and the
base delay is the default `1000`.  The last component records whether a
backend request was started. -/
def executeWithCache (now : ℚ) (cacheKey : String) (operation : ℕ → Except JSError JSValue)
    (useCache : Bool) (retriesOpt : ℕ) (opType : String) (queueOffline : Bool)
    (st : SvcState) : Except JSError JSValue × SvcState × Bool :=
  match executeWithCachePhase1 now cacheKey useCache st with
  | (.hit v, st1) => (.ok v, st1, false)
  | (.rateLimited, st1) => (.error rateLimitError, st1, false)
  | (.backendStarted, st1) =>
    let retries := if retriesOpt = 0 then 3 else retriesOpt
    let settled : Except JSError JSValue :=
      match (retryWithBackoff operation retries 1000).1 with
      | .ok v => .ok v
      | .threw e => .error e
      | .threwUndefined => .error ⟨"TypeError", "undefined", "undefined"⟩
    let done := executeWithCachePhase2 now cacheKey useCache opType queueOffline settled st1
    (done.1, done.2, true)

/-! ### Domain-service write operations (`firebase.js:584-619`, `659-689`,
`703-742`)

None of these methods consults `connectionMonitor.isOnline` or the offline
queue: each performs its backend write unconditionally (modelled by the
`backendResult` argument standing for the awaited Firestore call) and, on
success, applies its cache effect.  The version 3 source defines no
"queued" outcome (no `OfflineError` class exists in it), so a write settles
either as the resolved value or as the backend's thrown error. -/

/-- Observable outcome of one domain-service write: the settled result, the
cache and queue afterwards, and whether the backend write was attempted. -/
structure DomainWrite where
  result : Except JSError JSValue
  cache : LRUCache
  queue : OfflineQueue
  backendAttempted : Bool
deriving Repr

/-- `ProductService.createProduct` (`firebase.js:584-596`): unconditional
`addDoc`, then `cache.clear()`, resolving with the new record. -/
def createProduct (now : ℚ) (backendResult : Except JSError String) (st : SvcState) :
    DomainWrite :=
  match backendResult with
  | .error e => ⟨.error e, st.cache, st.queue, true⟩
  | .ok docId => ⟨.ok (.vObj ("product " ++ docId)), st.cache.clear, st.queue, true⟩

/-- `ProductService.updateProduct` (`firebase.js:598-609`): unconditional
`updateDoc`, then `cache.set("product:" ++ id, null)` as its only cache
invalidation, resolving with the patched record. -/
def updateProduct (now : ℚ) (id : String) (backendResult : Except JSError Unit)
    (st : SvcState) : DomainWrite :=
  match backendResult with
  | .error e => ⟨.error e, st.cache, st.queue, true⟩
  | .ok _ =>
    ⟨.ok (.vObj ("product " ++ id)), st.cache.set now ("product:" ++ id) .vNull,
     st.queue, true⟩

/-- `ProductService.deleteProduct` (`firebase.js:611-619`): unconditional
`deleteDoc`, then `cache.clear()`. -/
def deleteProduct (now : ℚ) (id : String) (backendResult : Except JSError Unit)
    (st : SvcState) : DomainWrite :=
  match backendResult with
  | .error e => ⟨.error e, st.cache, st.queue, true⟩
  | .ok _ => ⟨.ok (.vObj ("deleted " ++ id)), st.cache.clear, st.queue, true⟩

/-- `FAQService.createFAQ` (`firebase.js:659-670`): unconditional `addDoc`,
then `cache.clear()`. -/
def createFAQ (now : ℚ) (backendResult : Except JSError String) (st : SvcState) :
    DomainWrite :=
  match backendResult with
  | .error e => ⟨.error e, st.cache, st.queue, true⟩
  | .ok docId => ⟨.ok (.vObj ("faq " ++ docId)), st.cache.clear, st.queue, true⟩

/-- `FAQService.updateFAQ` (`firebase.js:672-681`): unconditional
`updateDoc`, then `cache.clear()`. -/
def updateFAQ (now : ℚ) (id : String) (backendResult : Except JSError Unit)
    (st : SvcState) : DomainWrite :=
  match backendResult with
  | .error e => ⟨.error e, st.cache, st.queue, true⟩
  | .ok _ => ⟨.ok (.vObj ("faq " ++ id)), st.cache.clear, st.queue, true⟩

/-- `FAQService.deleteFAQ` (`firebase.js:683-689`): unconditional
`deleteDoc`, then `cache.clear()`. -/
def deleteFAQ (now : ℚ) (id : String) (backendResult : Except JSError Unit)
    (st : SvcState) : DomainWrite :=
  match backendResult with
  | .error e => ⟨.error e, st.cache, st.queue, true⟩
  | .ok _ => ⟨.ok (.vObj ("deleted faq " ++ id)), st.cache.clear, st.queue, true⟩

/-- `FAQService.voteFAQ` (`firebase.js:647-657`): unconditional `updateDoc`
of the vote counter, then `cache.set("faqs:all", null)`. -/
def voteFAQ (now : ℚ) (id : String) (backendResult : Except JSError Unit)
    (st : SvcState) : DomainWrite :=
  match backendResult with
  | .error e => ⟨.error e, st.cache, st.queue, true⟩
  | .ok _ => ⟨.ok .vUndefined, st.cache.set now "faqs:all" .vNull, st.queue, true⟩

/-- `ContactService.submitContact` (`firebase.js:703-712`): unconditional
`addDoc`; no cache effect. -/
def submitContact (now : ℚ) (backendResult : Except JSError String) (st : SvcState) :
    DomainWrite :=
  match backendResult with
  | .error e => ⟨.error e, st.cache, st.queue, true⟩
  | .ok docId => ⟨.ok (.vObj ("contact " ++ docId)), st.cache, st.queue, true⟩

/-- `ContactService.updateContactStatus` (`firebase.js:728-736`):
unconditional `updateDoc`; no cache effect. -/
def updateContactStatus (now : ℚ) (id : String) (backendResult : Except JSError Unit)
    (st : SvcState) : DomainWrite :=
  match backendResult with
  | .error e => ⟨.error e, st.cache, st.queue, true⟩
  | .ok _ => ⟨.ok (.vObj ("contact " ++ id)), st.cache, st.queue, true⟩

/-- `ContactService.deleteContact` (`firebase.js:738-742`): unconditional
`deleteDoc`; no cache effect. -/
def deleteContact (now : ℚ) (id : String) (backendResult : Except JSError Unit)
    (st : SvcState) : DomainWrite :=
  match backendResult with
  | .error e => ⟨.error e, st.cache, st.queue, true⟩
  | .ok _ => ⟨.ok (.vObj ("deleted contact " ++ id)), st.cache, st.queue, true⟩

/-! ### Concrete fixtures used by counterexamples and witnesses -/

/-- Zeroed metrics, the constructor state of `MetricsTracker`. -/
def metricsZero : Metrics := ⟨0, 0, 0, 0, 0, 0⟩

/-- The default constructor state of the shared rate limiter
(`new RateLimiter(100, 10)`, `firebase.js:830`) at clock 0. -/
def rlDefault : RateLimiter := ⟨100, 100, 10, 0⟩

/-- An empty default cache (`new LRUCache(100, 5 * 60 * 1000)`,
`firebase.js:829`). -/
def cacheDefault : LRUCache := ⟨100, 300000, []⟩

/-- Service state with an empty cache, full default token bucket, empty
queue, while the connection monitor reports offline. -/
def stOffline : SvcState :=
  { cache := cacheDefault, rl := rlDefault, queue := ⟨7, []⟩
    isOnline := false, metrics := metricsZero }

/-- Service state with an empty cache, full default token bucket, empty
queue and the monitor online. -/
def stOnline : SvcState :=
  { cache := cacheDefault, rl := rlDefault, queue := ⟨1, []⟩
    isOnline := true, metrics := metricsZero }

/-- The error Firestore raises for a write attempted without connectivity. -/
def offlineErr : JSError :=
  ⟨"FirebaseError", "unavailable", "client is offline"⟩

/-- A transient backend error used to drive retry exhaustion. -/
def transientErr : JSError :=
  ⟨"FirebaseError", "unavailable", "backend down"⟩

/-- A terminal backend error (`permission-denied`). -/
def terminalErr : JSError :=
  ⟨"FirebaseError", "permission-denied", "denied"⟩

/-- A cache holding one entry whose stored value is `null`, as written by
`updateProduct`'s invalidation. -/
def cacheNullEntry : LRUCache := ⟨100, 300000, [("x", ⟨.vNull, 0⟩)]⟩

/-- Service state whose cache holds a stale `products:all` list entry
stored at time 0. -/
def stStaleList : SvcState :=
  { cache := ⟨100, 300000, [("products:all", ⟨.vObj "oldList", 0⟩)]⟩
    rl := rlDefault, queue := ⟨1, []⟩, isOnline := true, metrics := metricsZero }

/-- A queue holding two pending update operations against the same record,
enqueued in order (ids 1 then 2). -/
def queueTwoPending : OfflineQueue :=
  ⟨3, [⟨1, "update", "product:p1", 0, "pending"⟩,
       ⟨2, "update", "product:p1", 0, "pending"⟩]⟩

/-- A queue already holding 100 pending operations (the cap the claim
assumes). -/
def queueAtCap : OfflineQueue :=
  ⟨100, (List.range 100).map (fun i => ⟨i, "update", "product:p1", 0, "pending"⟩)⟩

/-- The entries behind the head of `cacheFull3`. -/
def tailBC : List (String × CacheItem) :=
  [("b", ⟨.vObj "B", 0⟩), ("c", ⟨.vObj "C", 0⟩)]

/-- A cache at capacity 3 holding keys `a`, `b`, `c` in recency order
(`a` oldest). -/
def cacheFull3 : LRUCache :=
  ⟨3, 300000, ("a", ⟨.vObj "A", 0⟩) :: tailBC⟩

/-! ### Helper lemmas about the JS `Map` embedding -/

theorem mapLookup_mapSet_self (k : String) (v : CacheItem) (l : List (String × CacheItem)) :
    mapLookup k (mapSet k v l) = some v := by
  induction l with
  | nil => simp [mapSet, mapLookup]
  | cons e rest ih =>
    by_cases h : e.1 = k
    · simp [mapSet, mapLookup, h]
    · simp [mapSet, mapLookup, h, ih]

theorem mapLookup_mapSet_ne (k k' : String) (v : CacheItem) (l : List (String × CacheItem))
    (h : k' ≠ k) : mapLookup k' (mapSet k v l) = mapLookup k' l := by
  have hkk : ¬ (k = k') := fun hh => h hh.symm
  induction l with
  | nil => simp [mapSet, mapLookup, hkk]
  | cons e rest ih =>
    by_cases he : e.1 = k
    · subst he
      simp [mapSet, mapLookup, hkk]
    · simp [mapSet, mapLookup, he, ih]

theorem mapSet_of_lookup_none (k : String) (v : CacheItem) (l : List (String × CacheItem))
    (h : mapLookup k l = none) : mapSet k v l = l ++ [(k, v)] := by
  induction l with
  | nil => simp [mapSet]
  | cons e rest ih =>
    by_cases he : e.1 = k
    · simp [mapLookup, he] at h
    · simp only [mapLookup, he, if_false] at h
      simp [mapSet, he, ih h]

theorem length_mapSet_of_lookup_some (k : String) (v x : CacheItem)
    (l : List (String × CacheItem)) (h : mapLookup k l = some x) :
    (mapSet k v l).length = l.length := by
  induction l with
  | nil => simp [mapLookup] at h
  | cons e rest ih =>
    by_cases he : e.1 = k
    · simp [mapSet, he]
    · simp only [mapLookup, he, if_false] at h
      simp [mapSet, he, ih h]

theorem get_of_lookup_none (c : LRUCache) (now : ℚ) (key : String)
    (h : mapLookup key c.cache = none) : c.get now key = (.vNull, c) := by
  simp [LRUCache.get, h]

theorem get_fst_of_value_vNull (c : LRUCache) (now : ℚ) (key : String) (item : CacheItem)
    (h : mapLookup key c.cache = some item) (hv : item.value = .vNull) :
    (c.get now key).1 = .vNull := by
  simp only [LRUCache.get, h]
  by_cases hexp : c.ttl < now - item.timestamp
  · simp [hexp]
  · simp [hexp, hv]

/-! ### Helper lemmas about retry and the rate limiter -/

/-- On an operation that fails with a non-terminal error at every attempt,
the retry loop makes every remaining attempt, sleeps `baseDelay * 2^i`
after each non-final attempt `i`, and finally rethrows the raw error of the
last attempt. -/
theorem retryGo_transient (fn : ℕ → Except JSError JSValue) (E : ℕ → JSError)
    (baseDelay : ℕ) (hfn : ∀ j, fn j = .error (E j))
    (hnt : ∀ j, isTerminalCode (E j).code = false) :
    ∀ r i, retryGo fn baseDelay i (r + 1) =
      (.threw (E (i + r)), r + 1,
       (List.range r).map (fun j => baseDelay * 2 ^ (i + j))) := by
  intro r
  induction r with
  | zero =>
    intro i
    simp [retryGo, hfn i, hnt i]
  | succ m ih =>
    intro i
    have hrec := ih (i + 1)
    conv_lhs => rw [retryGo]
    simp only [hfn i, hnt i, Bool.false_eq_true, if_false,
      Nat.succ_ne_zero, hrec, Prod.mk.injEq]
    refine ⟨?_, ?_, ?_⟩
    · have h1 : i + 1 + m = i + (m + 1) := by omega
      rw [h1]
    · trivial
    · rw [List.range_succ_eq_map, List.map_cons, List.map_map]
      simp only [List.cons.injEq]
      refine ⟨by norm_num, ?_⟩
      apply List.map_congr_left
      intro j _
      simp only [Function.comp_apply]
      have h2 : i + 1 + j = i + (j + 1) := by omega
      rw [h2]

/-- A single `tryAcquire` step keeps the token count inside `[0, maxTokens]`
and advances `lastRefill` to the call time, provided the clock did not run
backwards, the cost is non-negative and the configuration is sane. -/
theorem tryAcquire_preserves (rl : RateLimiter) (t c : ℚ)
    (h0 : 0 ≤ rl.tokens) (h1 : rl.tokens ≤ rl.maxTokens) (hr : 0 ≤ rl.refillRate)
    (ht : rl.lastRefill ≤ t) (hc : 0 ≤ c) :
    0 ≤ (rl.tryAcquire t c).2.tokens
    ∧ (rl.tryAcquire t c).2.tokens ≤ (rl.tryAcquire t c).2.maxTokens
    ∧ (rl.tryAcquire t c).2.maxTokens = rl.maxTokens
    ∧ (rl.tryAcquire t c).2.refillRate = rl.refillRate
    ∧ (rl.tryAcquire t c).2.lastRefill = t := by
  have hmax : 0 ≤ rl.maxTokens := le_trans h0 h1
  have hfill : 0 ≤ rl.tokens + (t - rl.lastRefill) / 1000 * rl.refillRate := by
    have : 0 ≤ (t - rl.lastRefill) / 1000 * rl.refillRate := by
      apply mul_nonneg _ hr
      apply div_nonneg _ (by norm_num)
      linarith
    linarith
  have hmin0 : 0 ≤ min rl.maxTokens (rl.tokens + (t - rl.lastRefill) / 1000 * rl.refillRate) :=
    le_min hmax hfill
  have hminM : min rl.maxTokens (rl.tokens + (t - rl.lastRefill) / 1000 * rl.refillRate)
      ≤ rl.maxTokens := min_le_left _ _
  unfold RateLimiter.tryAcquire RateLimiter.refill
  by_cases hacq :
      c ≤ min rl.maxTokens (rl.tokens + (t - rl.lastRefill) / 1000 * rl.refillRate)
  · simp only [hacq, if_true]
    refine ⟨by linarith, by linarith, ?_, ?_, ?_⟩ <;> trivial
  · simp only [hacq, if_false]
    refine ⟨hmin0, hminM, ?_, ?_, ?_⟩ <;> trivial

/-- All prefixes of a well-formed call sequence keep the token bucket
invariant. -/
theorem runCalls_take_preserves (calls : List (ℚ × ℚ)) :
    ∀ (rl : RateLimiter), 0 ≤ rl.tokens → rl.tokens ≤ rl.maxTokens →
    0 ≤ rl.refillRate →
    List.Chain' (· ≤ ·) (rl.lastRefill :: calls.map Prod.fst) →
    (∀ p ∈ calls, 0 ≤ p.2) →
    ∀ n, 0 ≤ (rl.runCalls (calls.take n)).tokens
      ∧ (rl.runCalls (calls.take n)).tokens ≤ (rl.runCalls (calls.take n)).maxTokens := by
  induction calls with
  | nil =>
    intro rl h0 h1 _ _ _ n
    simpa [RateLimiter.runCalls] using ⟨h0, h1⟩
  | cons p rest ih =>
    intro rl h0 h1 hr hchain hcost n
    obtain ⟨t, c⟩ := p
    cases n with
    | zero => simpa [RateLimiter.runCalls] using ⟨h0, h1⟩
    | succ m =>
      have ht : rl.lastRefill ≤ t := by
        simpa using (List.chain'_cons.mp (by simpa using hchain)).1
      have hc : 0 ≤ c := hcost (t, c) (by simp)
      have step := tryAcquire_preserves rl t c h0 h1 hr ht hc
      have hchain2 :
          List.Chain' (· ≤ ·) ((rl.tryAcquire t c).2.lastRefill :: rest.map Prod.fst) := by
        rw [step.2.2.2.2]
        exact (List.chain'_cons.mp (by simpa using hchain)).2
      have hcost2 : ∀ q ∈ rest, 0 ≤ q.2 := fun q hq => hcost q (by simp [hq])
      have := ih ((rl.tryAcquire t c).2) step.1 step.2.1
        (by rw [step.2.2.2.1]; exact hr) hchain2 hcost2 m
      simpa [RateLimiter.runCalls, List.take] using this

/-! ### Claim C1 -/

/-- Claim C1: the claim states that every domain-service write checks
`ConnectionMonitor.isOnline()` and, when offline, enqueues the operation to
the `OfflineQueue` and yields a deferred-success "queued" signal without a
synchronous backend attempt.  The version 3 source does none of this: with
the monitor offline, each write operation (products, FAQs, contacts) still
attempts the backend write, leaves the offline queue untouched, and settles
with the backend's own outcome (here the offline failure propagates to the
caller as a hard error, not a queued signal). -/
theorem C1_offline_writes_attempt_backend_and_never_enqueue :
    stOffline.isOnline = false
    ∧ (updateProduct 0 "p1" (.error offlineErr) stOffline).backendAttempted = true
    ∧ (updateProduct 0 "p1" (.error offlineErr) stOffline).queue = stOffline.queue
    ∧ (updateProduct 0 "p1" (.error offlineErr) stOffline).result = .error offlineErr
    ∧ (createProduct 0 (.error offlineErr) stOffline).backendAttempted = true
    ∧ (createProduct 0 (.error offlineErr) stOffline).queue = stOffline.queue
    ∧ (createProduct 0 (.error offlineErr) stOffline).result = .error offlineErr
    ∧ (deleteProduct 0 "p1" (.error offlineErr) stOffline).backendAttempted = true
    ∧ (deleteProduct 0 "p1" (.error offlineErr) stOffline).queue = stOffline.queue
    ∧ (createFAQ 0 (.error offlineErr) stOffline).backendAttempted = true
    ∧ (createFAQ 0 (.error offlineErr) stOffline).queue = stOffline.queue
    ∧ (updateFAQ 0 "f1" (.error offlineErr) stOffline).backendAttempted = true
    ∧ (updateFAQ 0 "f1" (.error offlineErr) stOffline).queue = stOffline.queue
    ∧ (deleteFAQ 0 "f1" (.error offlineErr) stOffline).backendAttempted = true
    ∧ (deleteFAQ 0 "f1" (.error offlineErr) stOffline).queue = stOffline.queue
    ∧ (submitContact 0 (.error offlineErr) stOffline).backendAttempted = true
    ∧ (submitContact 0 (.error offlineErr) stOffline).queue = stOffline.queue
    ∧ (submitContact 0 (.error offlineErr) stOffline).result = .error offlineErr
    ∧ (updateContactStatus 0 "c1" (.error offlineErr) stOffline).backendAttempted = true
    ∧ (updateContactStatus 0 "c1" (.error offlineErr) stOffline).queue = stOffline.queue
    ∧ (deleteContact 0 "c1" (.error offlineErr) stOffline).backendAttempted = true
    ∧ (deleteContact 0 "c1" (.error offlineErr) stOffline).queue = stOffline.queue := by
  refine ⟨rfl, rfl, rfl, rfl, rfl, rfl, rfl, rfl, rfl, rfl, rfl, rfl, rfl,
    rfl, rfl, rfl, rfl, rfl, rfl, rfl, rfl, rfl⟩

/-! ### Claim C2 -/

/-- Claim C2: the claim states that the reconnect drain replays each queued
operation through RateLimiter+RetryPolicy and removes it only after a
successful replay, keeping failed and subsequent same-key operations
queued.  The version 3 handler instead removes every queued operation
unconditionally and attempts no backend write at all (its replay logic is a
`TODO`): for a queue holding two pending updates to `product:p1`, draining
empties the queue while performing zero backend writes, and no drain ever
records a backend write. -/
theorem C2_drain_discards_without_replay :
    reconnectDrain queueTwoPending = (⟨3, []⟩, [])
    ∧ (queueTwoPending.ops.map QueuedOp.status = ["pending", "pending"])
    ∧ (∀ q : OfflineQueue, (reconnectDrain q).2 = []) := by
  exact ⟨rfl, rfl, fun q => rfl⟩

/-! ### Claim C7 -/

/-- Claim C7: the claim states that a second `read` with the same cache key
issued while the first one's backend call is still in flight shares the
first call's single backend request.  The version 3 `executeWithCache` has
no in-flight request map, and the cache is only written after the backend
resolves: starting from an empty cache, the synchronous prefix of the first
call starts a backend request, and the synchronous prefix of a second call
on the resulting state (i.e. issued before the first backend call resolves)
starts a second backend request, so two concurrent reads cost two backend
invocations, as the network-request counter records. -/
theorem C7_concurrent_reads_start_two_backend_calls :
    (executeWithCachePhase1 0 "products:all" true stOnline).1 = .backendStarted
    ∧ (executeWithCachePhase1 0 "products:all" true
        (executeWithCachePhase1 0 "products:all" true stOnline).2).1 = .backendStarted
    ∧ (executeWithCachePhase1 0 "products:all" true
        (executeWithCachePhase1 0 "products:all" true stOnline).2).2.metrics.networkRequests
      = 2 := by
  refine ⟨?_, ?_, ?_⟩ <;>
    norm_num [executeWithCachePhase1, stOnline, cacheDefault, rlDefault, metricsZero,
      LRUCache.get, mapLookup, truthy, RateLimiter.tryAcquire, RateLimiter.refill]

/-! ### Claim C3 -/

/-- Claim C3 counterexample: with a `products:all` list entry cached before
the write, a successful `updateProduct "p1"` leaves that entry in place with
its pre-write value, and a subsequent cached read of `products:all` returns
that pre-write value — contradicting the claim that every affected cache
key, including list entries of the mutated collection, is invalidated. -/
theorem C3_cex_updateProduct_leaves_list_cache_stale :
    mapLookup "products:all" (updateProduct 1 "p1" (.ok ()) stStaleList).cache.cache
      = some ⟨.vObj "oldList", 0⟩
    ∧ ((updateProduct 1 "p1" (.ok ()) stStaleList).cache.get 1 "products:all").1
      = .vObj "oldList" := by
  refine ⟨by decide, ?_⟩
  norm_num [updateProduct, stStaleList, LRUCache.set, LRUCache.get, mapLookup, mapSet,
    mapDelete]

/-- Claim C3 amended: after a successful `createProduct` or `deleteProduct`
the whole cache is cleared (so every key is trivially invalidated), but a
successful `updateProduct id` only overwrites the exact key
`product:id` with `null` (so a read of that key yields `null`); no
list/query key is touched — below capacity every other entry, including the
collection's list entry `products:all`, keeps its previously stored value
and is still served to subsequent cached reads. -/
theorem C3_amended_update_invalidates_only_exact_key (now later : ℚ) (id docId k : String)
    (st : SvcState) (hcap : st.cache.cache.length < st.cache.maxSize)
    (hk : k ≠ "product:" ++ id) :
    (createProduct now (.ok docId) st).cache.cache = []
    ∧ (deleteProduct now id (.ok ()) st).cache.cache = []
    ∧ ((updateProduct now id (.ok ()) st).cache.get later ("product:" ++ id)).1 = .vNull
    ∧ mapLookup k (updateProduct now id (.ok ()) st).cache.cache
      = mapLookup k st.cache.cache := by
  have hset : (updateProduct now id (.ok ()) st).cache.cache
      = mapSet ("product:" ++ id) ⟨.vNull, now⟩ st.cache.cache := by
    simp [updateProduct, LRUCache.set, Nat.not_le_of_lt hcap]
  refine ⟨rfl, rfl, ?_, ?_⟩
  · apply get_fst_of_value_vNull _ _ _ ⟨.vNull, now⟩ _ rfl
    rw [hset]
    exact mapLookup_mapSet_self _ _ _
  · rw [hset]
    exact mapLookup_mapSet_ne _ _ _ _ hk

/-- Claim C3 amended, witness: the amended statement applied to the concrete
stale-list state at key `products:all`. -/
theorem C3_amended_witness :
    stStaleList.cache.cache.length < stStaleList.cache.maxSize
    ∧ ("products:all" ≠ "product:" ++ "p1")
    ∧ ((createProduct 1 (.ok "d") stStaleList).cache.cache = []
      ∧ (deleteProduct 1 "p1" (.ok ()) stStaleList).cache.cache = []
      ∧ ((updateProduct 1 "p1" (.ok ()) stStaleList).cache.get 2 ("product:" ++ "p1")).1
        = .vNull
      ∧ mapLookup "products:all" (updateProduct 1 "p1" (.ok ()) stStaleList).cache.cache
        = mapLookup "products:all" stStaleList.cache.cache) :=
  ⟨by decide, by decide,
   C3_amended_update_invalidates_only_exact_key 1 2 "p1" "d" "products:all" stStaleList
     (by decide) (by decide)⟩

/-! ### Claim C4 -/

/-- Claim C4 counterexample: a retry-exhausted operation that always fails
with the transient code `unavailable` causes `retryWithBackoff` to rethrow
the raw last error itself — an error whose name is still `FirebaseError`,
not a `RetryExhaustedError` wrapper (no such class exists in the source) —
contradicting the claim that the rethrown error is wrapped to indicate
exhaustion. -/
theorem C4_cex_exhaustion_rethrows_raw_error :
    retryWithBackoff (fun _ => .error transientErr) 3 1000
      = (.threw transientErr, 3, [1000, 2000])
    ∧ transientErr.name = "FirebaseError"
    ∧ transientErr.name ≠ "RetryExhaustedError" := by
  exact ⟨by decide, rfl, by decide⟩

/-- Claim C4 amended: when `retryWithBackoff` exhausts its `maxRetries`
attempts on an operation that fails every attempt with a retryable error,
it rethrows the raw error of the last attempt itself, unwrapped (the source
defines no `RetryExhaustedError`). -/
theorem C4_amended_exhaustion_rethrows_last_raw_error
    (fn : ℕ → Except JSError JSValue) (E : ℕ → JSError) (maxRetries baseDelay : ℕ)
    (hm : 1 ≤ maxRetries) (hfn : ∀ j, fn j = .error (E j))
    (hnt : ∀ j, isTerminalCode (E j).code = false) :
    (retryWithBackoff fn maxRetries baseDelay).1 = .threw (E (maxRetries - 1)) := by
  obtain ⟨r, rfl⟩ : ∃ r, maxRetries = r + 1 := ⟨maxRetries - 1, by omega⟩
  rw [retryWithBackoff, retryGo_transient fn E baseDelay hfn hnt r 0]
  simp

/-- Claim C4 amended, witness: the amended statement applied to the concrete
always-transiently-failing operation with 3 retries. -/
theorem C4_amended_witness :
    1 ≤ 3 ∧ (retryWithBackoff (fun _ => .error transientErr) 3 1000).1
      = .threw ((fun _ => transientErr) (3 - 1)) :=
  ⟨by decide,
   C4_amended_exhaustion_rethrows_last_raw_error (fun _ => .error transientErr)
     (fun _ => transientErr) 3 1000 (by decide) (fun j => rfl) (fun j => rfl)⟩

/-! ### Claim C5 -/

/-- Claim C5 counterexample: with the queue already holding 100 operations
(the capacity cap the claim assumes), a further `OfflineQueue.add`
succeeds — it returns a fresh id and grows the queue to 101 entries —
instead of failing closed with a `QueueFullError` and leaving the queue
unchanged. -/
theorem C5_cex_add_succeeds_beyond_cap :
    queueAtCap.ops.length = 100
    ∧ ((queueAtCap.add 0 ⟨"update", "product:p1"⟩).2).ops.length = 101
    ∧ (queueAtCap.add 0 ⟨"update", "product:p1"⟩).1 = 100 := by
  refine ⟨?_, ?_, ?_⟩ <;> simp [queueAtCap, OfflineQueue.add]

/-- Claim C5 amended: `OfflineQueue.add` performs no capacity check at all:
every enqueue is accepted, appending the operation with status `pending`
and a fresh auto-increment id and resolving with that id, so the queue
length always grows by one and the queue is unbounded (the source defines
no `QueueFullError`). -/
theorem C5_amended_add_is_uncapped (q : OfflineQueue) (now : ℚ) (op : OpPayload) :
    (q.add now op).2.ops = q.ops ++ [⟨q.nextId, op.type, op.cacheKey, now, "pending"⟩]
    ∧ (q.add now op).2.ops.length = q.ops.length + 1
    ∧ (q.add now op).1 = q.nextId := by
  refine ⟨rfl, ?_, rfl⟩
  simp [OfflineQueue.add]

/-! ### Claim C6 -/

/-- Claim C6 counterexample: for the capacity-3 cache holding `a`, `b`, `c`
(`a` least recent), re-setting the already-present key `b` evicts the
unrelated entry `a` and shrinks the cache to 2 entries, and leaves `b` in
its old recency position (ahead of `c`) rather than most-recently-used —
contradicting the claim that a set of an already-present key at capacity
evicts nothing and refreshes that key's recency position. -/
theorem C6_cex_reset_at_capacity_evicts_other_entry :
    cacheFull3.cache.length = cacheFull3.maxSize
    ∧ mapLookup "a" cacheFull3.cache = some ⟨.vObj "A", 0⟩
    ∧ (cacheFull3.set 5 "b" (.vObj "B2")).cache
      = [("b", ⟨.vObj "B2", 5⟩), ("c", ⟨.vObj "C", 0⟩)]
    ∧ mapLookup "a" (cacheFull3.set 5 "b" (.vObj "B2")).cache = none
    ∧ (cacheFull3.set 5 "b" (.vObj "B2")).cache.length = 2 := by
  refine ⟨?_, ?_, ?_, ?_, ?_⟩ <;> decide

/-- Claim C6 amended: on a cache at capacity, `set` always deletes the
first entry in recency order before writing, whether or not the key is
already present.  A set of an absent key therefore evicts exactly the
oldest-position entry and appends the new key at the most-recent end; a set
of an already-present key other than the first entry evicts the unrelated
first entry (shrinking the cache by one) and updates the key's value and
timestamp in place, leaving its recency position unchanged; only when the
key itself is the first entry does the re-set behave as a promotion to
most-recently-used with a fresh timestamp.  Timestamps are always
refreshed. -/
theorem C6_amended_set_at_capacity (c : LRUCache) (now : ℚ) (key : String) (v : JSValue)
    (hd : String × CacheItem) (tl : List (String × CacheItem))
    (hc : c.cache = hd :: tl) (hlen : c.cache.length = c.maxSize) :
    (c.set now key v).cache = mapSet key ⟨v, now⟩ tl
    ∧ (mapLookup key tl = none → (c.set now key v).cache = tl ++ [(key, ⟨v, now⟩)])
    ∧ (∀ item, mapLookup key tl = some item →
        (c.set now key v).cache.length = tl.length
        ∧ mapLookup key (c.set now key v).cache = some ⟨v, now⟩
        ∧ (hd.1 ≠ key → mapLookup hd.1 tl = none →
            mapLookup hd.1 (c.set now key v).cache = none)) := by
  have hle : c.maxSize ≤ tl.length + 1 := by
    have h := hlen.ge
    rw [hc] at h
    simpa using h
  have hbase : (c.set now key v).cache = mapSet key ⟨v, now⟩ tl := by
    simp [LRUCache.set, hc, hle, mapDelete]
  refine ⟨hbase, ?_, ?_⟩
  · intro habs
    rw [hbase]
    exact mapSet_of_lookup_none _ _ _ habs
  · intro item hsome
    refine ⟨?_, ?_, ?_⟩
    · rw [hbase]
      exact length_mapSet_of_lookup_some _ _ item _ hsome
    · rw [hbase]
      exact mapLookup_mapSet_self _ _ _
    · intro hne habs
      rw [hbase, mapLookup_mapSet_ne _ _ _ _ hne]
      exact habs

/-- Claim C6 amended, witness: the amended statement applied to the
concrete full cache, re-setting the present key `b`. -/
theorem C6_amended_witness :
    cacheFull3.cache = ("a", ⟨.vObj "A", 0⟩) :: tailBC
    ∧ cacheFull3.cache.length = cacheFull3.maxSize
    ∧ ((cacheFull3.set 5 "b" (.vObj "B2")).cache = mapSet "b" ⟨.vObj "B2", 5⟩ tailBC
      ∧ (mapLookup "b" tailBC = none →
          (cacheFull3.set 5 "b" (.vObj "B2")).cache = tailBC ++ [("b", ⟨.vObj "B2", 5⟩)])
      ∧ (∀ item, mapLookup "b" tailBC = some item →
          (cacheFull3.set 5 "b" (.vObj "B2")).cache.length = tailBC.length
          ∧ mapLookup "b" (cacheFull3.set 5 "b" (.vObj "B2")).cache = some ⟨.vObj "B2", 5⟩
          ∧ (("a", (⟨.vObj "A", 0⟩ : CacheItem)).1 ≠ "b" →
              mapLookup "a" tailBC = none →
              mapLookup "a" (cacheFull3.set 5 "b" (.vObj "B2")).cache = none))) :=
  ⟨by decide, by decide,
   C6_amended_set_at_capacity cacheFull3 5 "b" (.vObj "B2") ("a", ⟨.vObj "A", 0⟩)
     tailBC (by decide) (by decide)⟩

/-! ### Further helper lemmas for the orchestrator -/

/-- A `tryAcquire`-path characterization of `executeWithCachePhase1` on a
cache miss with an admitting rate limiter. -/
theorem phase1_miss (now : ℚ) (key : String) (st : SvcState)
    (hkey : mapLookup key st.cache.cache = none)
    (htok : 1 ≤ (st.rl.refill now).tokens) :
    executeWithCachePhase1 now key true st
      = (.backendStarted,
         { st with
            rl := { st.rl.refill now with tokens := (st.rl.refill now).tokens - 1 }
            metrics := { st.metrics with
              cacheMisses := st.metrics.cacheMisses + 1
              networkRequests := st.metrics.networkRequests + 1 } }) := by
  have hget := get_of_lookup_none st.cache now key hkey
  simp [executeWithCachePhase1, hget, truthy, RateLimiter.tryAcquire, htok]

/-- Refilled token counts never exceed the bucket's capacity. -/
theorem refill_tokens_le_max (rl : RateLimiter) (t : ℚ) :
    (rl.refill t).tokens ≤ rl.maxTokens :=
  min_le_left _ _

/-- Refilling again at the same instant only re-caps the token count. -/
theorem refill_again (rl : RateLimiter) (t x : ℚ) :
    RateLimiter.refill { rl.refill t with tokens := x } t
      = { rl.refill t with tokens := min rl.maxTokens x } := by
  simp [RateLimiter.refill]

/-- Full characterization of one `executeWithCache` call whose cache misses,
whose rate limiter admits, and whose backend resolves at the first attempt
with a falsy value: the value is returned, the backend is invoked, and the
cache is left exactly as it was. -/
theorem executeWithCache_miss_falsy (now : ℚ) (key opType : String) (v : JSValue)
    (op : ℕ → Except JSError JSValue) (st : SvcState)
    (hv : truthy v = false) (hop : op 0 = .ok v)
    (hkey : mapLookup key st.cache.cache = none)
    (htok : 1 ≤ (st.rl.refill now).tokens) :
    executeWithCache now key op true 3 opType false st
      = (.ok v,
         { st with
            rl := { st.rl.refill now with tokens := (st.rl.refill now).tokens - 1 }
            metrics := { st.metrics with
              cacheMisses := st.metrics.cacheMisses + 1
              networkRequests := st.metrics.networkRequests + 1 } },
         true) := by
  have h1 := phase1_miss now key st hkey htok
  have hretry : retryWithBackoff op 3 1000 = (.ok v, 1, []) := by
    rw [retryWithBackoff]
    conv_lhs => rw [retryGo]
    simp [hop]
  simp [executeWithCache, h1, hretry, executeWithCachePhase2, hv]

/-! ### Claim C8 -/

/-- Claim C8: for every `maxRetries ≥ 1` and `baseDelay`,
`retryWithBackoff` attempts an operation that fails every attempt with a
transient error exactly `maxRetries` times, sleeping `baseDelay * 2^i`
between attempts `i` and `i+1` (the delays are exactly
`[baseDelay * 2^0, ..., baseDelay * 2^(maxRetries-2)]`), while an operation
that fails with a terminal code (`permission-denied`, `unauthenticated`,
`invalid-argument`) is attempted exactly once and its error is rethrown
immediately with no backoff delay. -/
theorem C8_retry_attempt_counts_and_backoff (maxRetries baseDelay : ℕ)
    (fn : ℕ → Except JSError JSValue) (E : ℕ → JSError)
    (gn : ℕ → Except JSError JSValue) (e : JSError)
    (hm : 1 ≤ maxRetries)
    (hfn : ∀ j, fn j = .error (E j)) (hnt : ∀ j, isTerminalCode (E j).code = false)
    (hg : gn 0 = .error e) (hte : isTerminalCode e.code = true) :
    (retryWithBackoff fn maxRetries baseDelay).2.1 = maxRetries
    ∧ (retryWithBackoff fn maxRetries baseDelay).2.2
      = (List.range (maxRetries - 1)).map (fun i => baseDelay * 2 ^ i)
    ∧ retryWithBackoff gn maxRetries baseDelay = (.threw e, 1, []) := by
  obtain ⟨r, rfl⟩ : ∃ r, maxRetries = r + 1 := ⟨maxRetries - 1, by omega⟩
  have h := retryGo_transient fn E baseDelay hfn hnt r 0
  refine ⟨?_, ?_, ?_⟩
  · rw [retryWithBackoff, h]
  · rw [retryWithBackoff, h]
    simp
  · rw [retryWithBackoff]
    conv_lhs => rw [retryGo]
    simp [hg, hte]

/-- Claim C8 witness: 3 attempts with delays `[1000, 2000]` for the
always-transiently-failing operation, one attempt and no delay for the
terminally-failing one. -/
theorem C8_retry_attempt_counts_and_backoff_witness :
    1 ≤ 3
    ∧ ((retryWithBackoff (fun _ => .error transientErr) 3 1000).2.1 = 3
      ∧ (retryWithBackoff (fun _ => .error transientErr) 3 1000).2.2
        = (List.range (3 - 1)).map (fun i => 1000 * 2 ^ i)
      ∧ retryWithBackoff (fun _ => .error terminalErr) 3 1000 = (.threw terminalErr, 1, []))
    ∧ (List.range (3 - 1)).map (fun i => 1000 * 2 ^ i) = [1000, 2000] :=
  ⟨by decide,
   C8_retry_attempt_counts_and_backoff 3 1000 (fun _ => .error transientErr)
     (fun _ => transientErr) (fun _ => .error terminalErr) terminalErr (by decide)
     (fun j => rfl) (fun j => rfl) rfl rfl,
   by decide⟩

/-! ### Claim C9 -/

/-- Claim C9: across every sequence of `tryAcquire` calls at non-decreasing
clock times with non-negative costs, the token count stays within
`[0, maxTokens]` after every call; and each single call first refills the
bucket by `elapsedSeconds * refillRate` capped at `maxTokens`, then returns
`true` and decrements by the cost exactly when the refilled count is at
least the cost, returning `false` with the tokens left at the refilled
value otherwise. -/
theorem C9_token_bucket_invariant (rl : RateLimiter) (calls : List (ℚ × ℚ)) (n : ℕ)
    (rl2 : RateLimiter) (t c : ℚ)
    (h0 : 0 ≤ rl.tokens) (h1 : rl.tokens ≤ rl.maxTokens) (hr : 0 ≤ rl.refillRate)
    (hchain : List.Chain' (· ≤ ·) (rl.lastRefill :: calls.map Prod.fst))
    (hcost : ∀ p ∈ calls, 0 ≤ p.2) :
    (0 ≤ (rl.runCalls (calls.take n)).tokens
      ∧ (rl.runCalls (calls.take n)).tokens ≤ (rl.runCalls (calls.take n)).maxTokens)
    ∧ ((rl2.tryAcquire t c).1 = true ↔ c ≤ (rl2.refill t).tokens)
    ∧ ((rl2.tryAcquire t c).1 = true →
        (rl2.tryAcquire t c).2
          = { rl2.refill t with tokens := (rl2.refill t).tokens - c })
    ∧ ((rl2.tryAcquire t c).1 = false → (rl2.tryAcquire t c).2 = rl2.refill t)
    ∧ (rl2.refill t).tokens
      = min rl2.maxTokens (rl2.tokens + (t - rl2.lastRefill) / 1000 * rl2.refillRate) := by
  refine ⟨runCalls_take_preserves calls rl h0 h1 hr hchain hcost n, ?_, ?_, ?_, rfl⟩
  · by_cases hacq : c ≤ (rl2.refill t).tokens
    · simp [RateLimiter.tryAcquire, hacq]
    · simp [RateLimiter.tryAcquire, hacq]
  · intro htrue
    by_cases hacq : c ≤ (rl2.refill t).tokens
    · simp [RateLimiter.tryAcquire, hacq]
    · simp [RateLimiter.tryAcquire, hacq] at htrue
  · intro hfalse
    by_cases hacq : c ≤ (rl2.refill t).tokens
    · simp [RateLimiter.tryAcquire, hacq] at hfalse
    · simp [RateLimiter.tryAcquire, hacq]

/-- Claim C9 witness: the invariant and the per-call characterization at
the default limiter, one call of cost 1 at time 5. -/
theorem C9_token_bucket_invariant_witness :
    (0 ≤ rlDefault.tokens ∧ rlDefault.tokens ≤ rlDefault.maxTokens
      ∧ 0 ≤ rlDefault.refillRate
      ∧ List.Chain' (· ≤ ·) (rlDefault.lastRefill :: [((5 : ℚ), (1 : ℚ))].map Prod.fst)
      ∧ (∀ p ∈ [((5 : ℚ), (1 : ℚ))], 0 ≤ p.2))
    ∧ ((0 ≤ (rlDefault.runCalls ([((5 : ℚ), (1 : ℚ))].take 1)).tokens
        ∧ (rlDefault.runCalls ([((5 : ℚ), (1 : ℚ))].take 1)).tokens
          ≤ (rlDefault.runCalls ([((5 : ℚ), (1 : ℚ))].take 1)).maxTokens)
      ∧ ((rlDefault.tryAcquire 5 1).1 = true ↔ 1 ≤ (rlDefault.refill 5).tokens)
      ∧ ((rlDefault.tryAcquire 5 1).1 = true →
          (rlDefault.tryAcquire 5 1).2
            = { rlDefault.refill 5 with tokens := (rlDefault.refill 5).tokens - 1 })
      ∧ ((rlDefault.tryAcquire 5 1).1 = false →
          (rlDefault.tryAcquire 5 1).2 = rlDefault.refill 5)
      ∧ (rlDefault.refill 5).tokens
        = min rlDefault.maxTokens
            (rlDefault.tokens + ((5 : ℚ) - rlDefault.lastRefill) / 1000 * rlDefault.refillRate)) :=
  ⟨⟨by norm_num [rlDefault], by norm_num [rlDefault], by norm_num [rlDefault],
    by norm_num [rlDefault, List.chain'_cons, List.chain'_singleton],
    by intro p hp; rw [List.mem_singleton] at hp; subst hp; norm_num⟩,
   C9_token_bucket_invariant rlDefault [((5 : ℚ), (1 : ℚ))] 1 rlDefault 5 1
     (by norm_num [rlDefault]) (by norm_num [rlDefault]) (by norm_num [rlDefault])
     (by norm_num [rlDefault, List.chain'_cons, List.chain'_singleton])
     (by intro p hp; rw [List.mem_singleton] at hp; subst hp; norm_num)⟩

/-! ### Claim C10 -/

/-- Claim C10: `executeWithCache` caches a resolved backend result only when
it is truthy: a falsy result (null, false, 0, empty string) is returned to
the caller but never cached — the cache is left exactly as before — so a
subsequent read with the same key misses again and re-invokes the backend;
and `LRUCache.get` returns `null` both for an absent key and for an entry
whose stored value is `null` (as written by `updateProduct`'s
invalidation), making the two indistinguishable to the caller. -/
theorem C10_falsy_results_never_cached (st : SvcState) (key opType : String) (v : JSValue)
    (op : ℕ → Except JSError JSValue) (now : ℚ)
    (c2 : LRUCache) (k2 : String) (n2 : ℚ) (item2 : CacheItem)
    (c3 : LRUCache) (k3 : String) (n3 : ℚ)
    (hv : truthy v = false) (hop : op 0 = .ok v)
    (hkey : mapLookup key st.cache.cache = none)
    (htok : 2 ≤ (st.rl.refill now).tokens) :
    (executeWithCache now key op true 3 opType false st).1 = .ok v
    ∧ (executeWithCache now key op true 3 opType false st).2.2 = true
    ∧ (executeWithCache now key op true 3 opType false st).2.1.cache = st.cache
    ∧ (executeWithCache now key op true 3 opType false
        (executeWithCache now key op true 3 opType false st).2.1).2.2 = true
    ∧ (mapLookup k2 c2.cache = some item2 → item2.value = .vNull → (c2.get n2 k2).1 = .vNull)
    ∧ (mapLookup k3 c3.cache = none → (c3.get n3 k3).1 = .vNull) := by
  have htok1 : 1 ≤ (st.rl.refill now).tokens := by linarith
  have h1 := executeWithCache_miss_falsy now key opType v op st hv hop hkey htok1
  have hcache1 : (executeWithCache now key op true 3 opType false st).2.1.cache = st.cache := by
    rw [h1]
  have hkey1 :
      mapLookup key (executeWithCache now key op true 3 opType false st).2.1.cache.cache
        = none := by
    rw [hcache1]
    exact hkey
  have htok2 :
      1 ≤ ((executeWithCache now key op true 3 opType false st).2.1.rl.refill now).tokens := by
    rw [h1]
    simp only [RateLimiter.refill] at htok ⊢
    rw [sub_self, zero_div, zero_mul, add_zero]
    have hx := min_le_left st.rl.maxTokens
      (st.rl.tokens + (now - st.rl.lastRefill) / 1000 * st.rl.refillRate)
    refine le_min ?_ ?_
    · linarith
    · linarith
  have h2 := executeWithCache_miss_falsy now key opType v op
    (executeWithCache now key op true 3 opType false st).2.1 hv hop hkey1 htok2
  refine ⟨by rw [h1], by rw [h1], hcache1, by rw [h2], ?_, ?_⟩
  · intro hsome hnull
    exact get_fst_of_value_vNull c2 n2 k2 item2 hsome hnull
  · intro hnone
    rw [get_of_lookup_none c3 n3 k3 hnone]

/-- Claim C10 witness: a backend resolving with the falsy number `0` on the
default online state, plus the null-entry and absent-key cache reads. -/
theorem C10_falsy_results_never_cached_witness :
    (truthy (.vNum 0) = false
      ∧ (fun _ : ℕ => (Except.ok (.vNum 0) : Except JSError JSValue)) 0 = .ok (.vNum 0)
      ∧ mapLookup "products:all" stOnline.cache.cache = none
      ∧ 2 ≤ (stOnline.rl.refill 0).tokens)
    ∧ ((executeWithCache 0 "products:all" (fun _ => .ok (.vNum 0)) true 3 "read" false
          stOnline).1 = .ok (.vNum 0)
      ∧ (executeWithCache 0 "products:all" (fun _ => .ok (.vNum 0)) true 3 "read" false
          stOnline).2.2 = true
      ∧ (executeWithCache 0 "products:all" (fun _ => .ok (.vNum 0)) true 3 "read" false
          stOnline).2.1.cache = stOnline.cache
      ∧ (executeWithCache 0 "products:all" (fun _ => .ok (.vNum 0)) true 3 "read" false
          ((executeWithCache 0 "products:all" (fun _ => .ok (.vNum 0)) true 3 "read" false
            stOnline).2.1)).2.2 = true
      ∧ (mapLookup "x" cacheNullEntry.cache = some ⟨.vNull, 0⟩ →
          (⟨.vNull, (0 : ℚ)⟩ : CacheItem).value = .vNull →
          (cacheNullEntry.get 1 "x").1 = .vNull)
      ∧ (mapLookup "y" cacheDefault.cache = none → (cacheDefault.get 0 "y").1 = .vNull)) :=
  ⟨⟨by decide, rfl, by decide,
    by norm_num [stOnline, rlDefault, RateLimiter.refill]⟩,
   C10_falsy_results_never_cached stOnline "products:all" "read" (.vNum 0)
     (fun _ => .ok (.vNum 0)) 0 cacheNullEntry "x" 1 ⟨.vNull, 0⟩ cacheDefault "y" 0
     (by decide) rfl (by decide)
     (by norm_num [stOnline, rlDefault, RateLimiter.refill])⟩

end JeelaniFirebase
